import Mathlib

/-!
Verification of the typed-value extraction layer of `treexml-util`
(`src/lib.rs`), a shallow embedding in Lean 4.

Modelling conventions:
* `Element` mirrors `treexml::Element` restricted to the fields this layer
  reads (`name`, `text`, `cdata`, `children`).
* `TError` mirrors the variants of `treexml::Error` that this layer
  constructs or matches on; every payload is the carried message string.
* Rust functions returning `Result<_, treexml::Error>` become Lean
  functions returning `Except TError _`.  Functions taking an
  `&mut` out-parameter additionally return the final value of that slot,
  so the pair `(result, out-after-call)` captures the whole effect;
  the Rust `return Err(..)` before `mem::swap` is the arm that returns
  the slot unchanged.
* The external `treexml` search primitives (`Element::find`,
  `Element::find_value`) are not part of this crate; the wrappers
  `find_value0`, `find_value1` and `find_bool` are therefore embedded as
  functions of the search primitive's already-computed outcome, which the
  theorems quantify over.
* `bool::from_str` and `i64::from_str` are Rust standard library
  behaviour, embedded as `boolFromStr` and `i64FromStr` together with the
  `Display` text of their error types.
-/

namespace TreexmlUtil

/-- Mirror of `treexml::Element`: a node with a name, optional text,
optional CDATA payload and ordered children. -/
structure Element where
  name : String
  text : Option String
  cdata : Option String
  children : List Element
deriving Repr

/-- Mirror of the `treexml::Error` variants used by `src/lib.rs`.
Each constructor carries the message string stored in the corresponding
Rust variant (`ParseError` holds the `format_err!` message,
`ElementNotFound` and `ValueFromStr` hold their `t` field,
`WriteError` stands for the remaining variants this layer never builds). -/
inductive TError where
  | ParseError (msg : String)
  | ElementNotFound (t : String)
  | ValueFromStr (t : String)
  | WriteError (msg : String)
deriving Repr, DecidableEq

instance {ε α : Type} [DecidableEq ε] [DecidableEq α] :
    DecidableEq (Except ε α) := fun x y =>
  match x, y with
  | .ok a, .ok b =>
      if h : a = b then .isTrue (by rw [h])
      else .isFalse (fun hc => h (Except.ok.inj hc))
  | .error a, .error b =>
      if h : a = b then .isTrue (by rw [h])
      else .isFalse (fun hc => h (Except.error.inj hc))
  | .ok _, .error _ => .isFalse (fun hc => Except.noConfusion hc)
  | .error _, .ok _ => .isFalse (fun hc => Except.noConfusion hc)

/-- The string `sub` occurs contiguously inside `s`. -/
def containsStr (s sub : String) : Prop := sub.data <:+: s.data

instance (s sub : String) : Decidable (containsStr s sub) :=
  List.decidableInfix sub.data s.data

/-- Rust `bool::from_str`: accepts exactly the strings `"true"` and
`"false"`; on failure the error's `Display` text is the fixed message
of `std::str::ParseBoolError`. -/
def boolFromStr (s : String) : Except String Bool :=
  if s = "true" then .ok true
  else if s = "false" then .ok false
  else .error "provided string was not `true` or `false`"

/-- Digit accumulator for `i64FromStr`: folds decimal digits left to
right, `none` on the first non-digit character. -/
def digitsVal : List Char → Nat → Option Nat
  | [], acc => some acc
  | c :: rest, acc =>
      if c.isDigit then digitsVal rest (acc * 10 + (c.toNat - 48)) else none

/-- Rust `i64::from_str`: optional sign, then decimal digits, with the
`i64` range check; error payloads are the `Display` texts of
`std::num::ParseIntError`. -/
def i64FromStr (s : String) : Except String Int :=
  match s.data with
  | [] => .error "cannot parse integer from empty string"
  | c :: rest =>
      let neg : Bool := c = '-'
      let ds : List Char := if c = '-' ∨ c = '+' then rest else c :: rest
      match ds with
      | [] => .error "invalid digit found in string"
      | _ :: _ =>
          match digitsVal ds 0 with
          | none => .error "invalid digit found in string"
          | some m =>
              if neg then
                if (m : Int) ≤ 2 ^ 63 then .ok (-(m : Int))
                else .error "number too small to fit in target type"
              else
                if (m : Int) ≤ 2 ^ 63 - 1 then .ok (m : Int)
                else .error "number too large to fit in target type"

/-- Embedding of `ElementExt::unmarshal_into` (`src/lib.rs` lines 91-111),
generic over the target type's `FromStr` operation `p` (whose error case
carries the `Display` text of the underlying failure).  The second
component of the result is the value of the out-slot after the call. -/
def unmarshal_into {α : Type} (p : String → Except String α) (e : Element)
    (out : α) : Except TError Bool × α :=
  match e.text with
  | none => (.ok false, out)
  | some text =>
      match p text with
      | .ok v => (.ok true, v)
      | .error msg => (.error (.ValueFromStr msg), out)

/-- Embedding of `ElementExt::unmarshal_bool_into` (`src/lib.rs` lines
113-132).  The second component of the result is the value of the
out-slot after the call. -/
def unmarshal_bool_into (e : Element) (out : Bool) :
    Except TError Bool × Bool :=
  match e.text with
  | none => (.ok true, true)
  | some text =>
      match boolFromStr text with
      | .ok v => (.ok true, v)
      | .error msg => (.error (.ValueFromStr msg), out)

/-- Embedding of `ElementExt::find_value0` (`src/lib.rs` lines 40-50) as a
function of the outcome `r` of the external `treexml::Element::find_value`
call: the `or_else` downgrades `ElementNotFound` to `Ok(None)` and keeps
everything else. -/
def find_value0 {α : Type} (r : Except TError (Option α)) :
    Except TError (Option α) :=
  match r with
  | .error (.ElementNotFound _) => .ok none
  | .error e => .error e
  | .ok v => .ok v

/-- Embedding of `ElementExt::find_value1` (`src/lib.rs` lines 52-63) as a
function of the path and of the outcome `r` of the external
`treexml::Element::find_value` call. -/
def find_value1 {α : Type} (path : String) (r : Except TError (Option α)) :
    Except TError α :=
  match find_value0 r with
  | .error e => .error e
  | .ok none => .error (.ParseError ("Value not found at path: " ++ path))
  | .ok (some v) => .ok v

/-- Embedding of `ElementExt::find_bool` (`src/lib.rs` lines 65-89) as a
function of the outcome `r` of the external `treexml::Element::find`
call. -/
def find_bool (r : Except TError Element) : Except TError Bool :=
  match r with
  | .ok e =>
      match e.text with
      | none => .ok true
      | some text =>
          if text = "true" then .ok true
          else if text = "false" then .ok false
          else if text = "1" then .ok true
          else if text = "0" then .ok false
          else .error (.ParseError ("Invalid boolean value: " ++ text))
  | .error (.ElementNotFound _) => .ok false
  | .error e => .error e

/-- Embedding of `make_tree_element` (`src/lib.rs` lines 164-170):
a container element wrapping child elements, other fields defaulted. -/
def make_tree_element (name : String) (v : List Element) : Element :=
  { name := name, text := none, cdata := none, children := v }

/-- Embedding of `make_text_element` (`src/lib.rs` lines 173-182), generic
over the target type's `Display` rendering `disp`. -/
def make_text_element {α : Type} (disp : α → String) (name : String)
    (v : α) : Element :=
  { name := name, text := some (disp v), cdata := none, children := [] }

/-- Embedding of `make_cdata_element` (`src/lib.rs` lines 185-194). -/
def make_cdata_element {α : Type} (disp : α → String) (name : String)
    (v : α) : Element :=
  { name := name, text := none, cdata := some (disp v), children := [] }

lemma containsStr_append_right (pre t : String) :
    containsStr (pre ++ t) t := by
  unfold containsStr
  rw [String.data_append]
  exact (List.suffix_append pre.data t.data).isInfix

/-- C8: for a node without text content, `unmarshal_bool_into` assigns
`true` to the out-slot and returns `Ok(true)`. -/
theorem unmarshal_bool_no_text (e : Element) (out : Bool)
    (h : e.text = none) :
    unmarshal_bool_into e out = (.ok true, true) := by
  simp [unmarshal_bool_into, h]

theorem unmarshal_bool_no_text_witness :
    unmarshal_bool_into
        { name := "do_want", text := none, cdata := none, children := [] }
        false
      = (.ok true, true) :=
  unmarshal_bool_no_text
    { name := "do_want", text := none, cdata := none, children := [] }
    false rfl

/-- C4: for a node without text content and any target type,
`unmarshal_into` returns `Ok(false)` and leaves the out-slot unchanged. -/
theorem unmarshal_into_no_text {α : Type} (p : String → Except String α)
    (e : Element) (out : α) (h : e.text = none) :
    unmarshal_into p e out = (.ok false, out) := by
  simp [unmarshal_into, h]

theorem unmarshal_into_no_text_witness :
    unmarshal_into i64FromStr
        { name := "n", text := none, cdata := none, children := [] }
        (7 : Int)
      = (.ok false, 7) :=
  unmarshal_into_no_text i64FromStr
    { name := "n", text := none, cdata := none, children := [] } 7 rfl

/-- C5: for a node with text, `unmarshal_into` overwrites the out-slot
with the parsed value and returns `Ok(true)` when the target type's
`from_str` succeeds, and returns a `ValueFromStr` error wrapping the
underlying failure's `Display` text (leaving the slot as passed) when it
fails. -/
theorem unmarshal_into_with_text {α : Type} (p : String → Except String α)
    (e : Element) (out : α) (t : String) (h : e.text = some t) :
    (∀ v, p t = .ok v → unmarshal_into p e out = (.ok true, v)) ∧
    (∀ msg, p t = .error msg →
      unmarshal_into p e out = (.error (.ValueFromStr msg), out)) := by
  constructor
  · intro v hv
    simp [unmarshal_into, h, hv]
  · intro msg hm
    simp [unmarshal_into, h, hm]

theorem unmarshal_into_with_text_witness :
    unmarshal_into i64FromStr
        { name := "data", text := some "5", cdata := none, children := [] }
        (0 : Int)
      = (.ok true, 5) :=
  (unmarshal_into_with_text i64FromStr
      { name := "data", text := some "5", cdata := none, children := [] }
      0 "5" rfl).1 5 (by decide)

/-- C10: whenever `unmarshal_into` or `unmarshal_bool_into` returns an
error, the out-slot is unchanged: the Rust early `return Err(..)` fires
before `mem::swap`, so assignment happens only on the success path. -/
theorem unmarshal_error_preserves_out {α : Type}
    (p : String → Except String α) (e e' : Element) (out : α)
    (outb : Bool) :
    (∀ err, (unmarshal_into p e out).1 = .error err →
      (unmarshal_into p e out).2 = out) ∧
    (∀ err, (unmarshal_bool_into e' outb).1 = .error err →
      (unmarshal_bool_into e' outb).2 = outb) := by
  constructor
  · intro err herr
    cases he : e.text with
    | none => simp [unmarshal_into, he] at herr
    | some t =>
        cases hp : p t with
        | ok v => simp [unmarshal_into, he, hp] at herr
        | error m => simp [unmarshal_into, he, hp]
  · intro err herr
    cases he : e'.text with
    | none => simp [unmarshal_bool_into, he] at herr
    | some t =>
        cases hp : boolFromStr t with
        | ok v => simp [unmarshal_bool_into, he, hp] at herr
        | error m => simp [unmarshal_bool_into, he, hp]

theorem unmarshal_error_preserves_out_witness :
    (unmarshal_into i64FromStr
        { name := "n", text := some "x", cdata := none, children := [] }
        (7 : Int)).2 = 7 ∧
    (unmarshal_bool_into
        { name := "b", text := some "maybe", cdata := none, children := [] }
        false).2 = false :=
  ⟨(unmarshal_error_preserves_out i64FromStr
        { name := "n", text := some "x", cdata := none, children := [] }
        { name := "b", text := some "maybe", cdata := none, children := [] }
        7 false).1
      (.ValueFromStr "invalid digit found in string") (by decide),
   (unmarshal_error_preserves_out i64FromStr
        { name := "n", text := some "x", cdata := none, children := [] }
        { name := "b", text := some "maybe", cdata := none, children := [] }
        7 false).2
      (.ValueFromStr "provided string was not `true` or `false`")
      (by decide)⟩

/-- C1 counterexample: the claim says `unmarshal_bool_into` accepts the
token `"1"` as `true`; the code delegates to Rust's `bool::from_str`,
which rejects `"1"`, so on text `"1"` it returns a parse error and never
assigns. -/
theorem unmarshal_bool_one_rejected :
    unmarshal_bool_into
        { name := "b", text := some "1", cdata := none, children := [] }
        false
      = (.error (.ValueFromStr "provided string was not `true` or `false`"),
         false) := by
  decide

/-- C1 (amended): for a node with text, `unmarshal_bool_into` accepts
exactly the tokens `"true"` (assigning `true`) and `"false"` (assigning
`false`), returning `Ok(true)` on success; any other token, including
`"1"` and `"0"`, yields a parse error. -/
theorem unmarshal_bool_token_rules (e : Element) (t : String)
    (h : e.text = some t) (out : Bool) :
    (t = "true" → unmarshal_bool_into e out = (.ok true, true)) ∧
    (t = "false" → unmarshal_bool_into e out = (.ok true, false)) ∧
    (t ≠ "true" → t ≠ "false" →
      unmarshal_bool_into e out =
        (.error (.ValueFromStr "provided string was not `true` or `false`"),
         out)) := by
  refine ⟨?_, ?_, ?_⟩
  · intro ht
    simp [unmarshal_bool_into, boolFromStr, h, ht]
  · intro ht
    simp [unmarshal_bool_into, boolFromStr, h, ht]
  · intro h1 h2
    simp [unmarshal_bool_into, boolFromStr, h, h1, h2]

theorem unmarshal_bool_token_rules_witness :
    unmarshal_bool_into
        { name := "b", text := some "true", cdata := none, children := [] }
        false
      = (.ok true, true) :=
  (unmarshal_bool_token_rules
      { name := "b", text := some "true", cdata := none, children := [] }
      "true" rfl false).1 rfl

/-- C2 counterexample: on the rejected token `"maybe"`,
`unmarshal_bool_into` returns the error wrapping `ParseBoolError`'s fixed
message, and that message does not contain the offending text
`"maybe"`. -/
theorem unmarshal_bool_error_omits_token :
    (unmarshal_bool_into
        { name := "b", text := some "maybe", cdata := none, children := [] }
        false).1
      = .error (.ValueFromStr "provided string was not `true` or `false`")
    ∧ ¬ containsStr "provided string was not `true` or `false`" "maybe" := by
  constructor
  · decide
  · decide

/-- C2 (amended): when `unmarshal_bool_into` rejects a text token, the
error carries the underlying `bool::from_str` failure's description,
which is the fixed `ParseBoolError` message and does not name the
offending text. -/
theorem unmarshal_bool_reject_message (e : Element) (t : String)
    (h : e.text = some t) (h1 : t ≠ "true") (h2 : t ≠ "false")
    (out : Bool) :
    (unmarshal_bool_into e out).1
      = .error (.ValueFromStr "provided string was not `true` or `false`") := by
  simp [unmarshal_bool_into, boolFromStr, h, h1, h2]

theorem unmarshal_bool_reject_message_witness :
    (unmarshal_bool_into
        { name := "b", text := some "maybe", cdata := none, children := [] }
        true).1
      = .error (.ValueFromStr "provided string was not `true` or `false`") :=
  unmarshal_bool_reject_message
    { name := "b", text := some "maybe", cdata := none, children := [] }
    "maybe" rfl (by decide) (by decide) true

/-- C3: `find_bool` maps a not-found search outcome to `Ok(false)`, a
found node without text to `Ok(true)`, text `"true"`/`"1"` to `Ok(true)`,
text `"false"`/`"0"` to `Ok(false)`, any other text to a parse error
naming that text, and propagates every other search error unchanged. -/
theorem find_bool_spec :
    (∀ t : String, find_bool (.error (.ElementNotFound t)) = .ok false) ∧
    (∀ e : Element, e.text = none → find_bool (.ok e) = .ok true) ∧
    (∀ (e : Element) (t : String), e.text = some t →
      (t = "true" ∨ t = "1") → find_bool (.ok e) = .ok true) ∧
    (∀ (e : Element) (t : String), e.text = some t →
      (t = "false" ∨ t = "0") → find_bool (.ok e) = .ok false) ∧
    (∀ (e : Element) (t : String), e.text = some t →
      t ≠ "true" → t ≠ "false" → t ≠ "1" → t ≠ "0" →
      find_bool (.ok e)
          = .error (.ParseError ("Invalid boolean value: " ++ t)) ∧
        containsStr ("Invalid boolean value: " ++ t) t) ∧
    (∀ err : TError, (∀ t, err ≠ .ElementNotFound t) →
      find_bool (.error err) = .error err) := by
  refine ⟨?_, ?_, ?_, ?_, ?_, ?_⟩
  · intro t
    simp [find_bool]
  · intro e h
    simp [find_bool, h]
  · intro e t h ht
    rcases ht with ht | ht <;> simp [find_bool, h, ht]
  · intro e t h ht
    rcases ht with ht | ht <;> simp [find_bool, h, ht]
  · intro e t h h1 h2 h3 h4
    refine ⟨?_, containsStr_append_right _ t⟩
    simp [find_bool, h, h1, h2, h3, h4]
  · intro err hne
    cases err with
    | ParseError m => simp [find_bool]
    | ElementNotFound t => exact absurd rfl (hne t)
    | ValueFromStr t => simp [find_bool]
    | WriteError m => simp [find_bool]

theorem find_bool_spec_witness :
    find_bool
        (.ok { name := "b", text := some "maybe", cdata := none,
               children := [] })
        = .error (.ParseError "Invalid boolean value: maybe")
      ∧ containsStr "Invalid boolean value: maybe" "maybe" :=
  find_bool_spec.2.2.2.2.1
    { name := "b", text := some "maybe", cdata := none, children := [] }
    "maybe" rfl (by decide) (by decide) (by decide) (by decide)

/-- C6: `find_value0` turns a not-found search outcome into
`Ok(None)`, propagates every other search error unchanged, and passes a
successful outcome through, so absence is never an error and is never
conflated with a coercion failure. -/
theorem find_value0_spec (α : Type) :
    (∀ t : String,
      find_value0 (α := α) (.error (.ElementNotFound t)) = .ok none) ∧
    (∀ err : TError, (∀ t, err ≠ .ElementNotFound t) →
      find_value0 (α := α) (.error err) = .error err) ∧
    (∀ v : Option α, find_value0 (.ok v) = .ok v) := by
  refine ⟨?_, ?_, ?_⟩
  · intro t
    simp [find_value0]
  · intro err hne
    cases err with
    | ParseError m => simp [find_value0]
    | ElementNotFound t => exact absurd rfl (hne t)
    | ValueFromStr t => simp [find_value0]
    | WriteError m => simp [find_value0]
  · intro v
    simp [find_value0]

theorem find_value0_spec_witness :
    find_value0 (α := Int) (.error (.ElementNotFound "key")) = .ok none ∧
    find_value0 (α := Int) (.error (.ValueFromStr "boom"))
      = .error (.ValueFromStr "boom") :=
  ⟨(find_value0_spec Int).1 "key",
   (find_value0_spec Int).2.1 (.ValueFromStr "boom")
     (fun _ h => TError.noConfusion h)⟩

/-- C7: on a not-found search outcome (path absent from the tree),
`find_value1` returns a `ParseError` whose message carries the path. -/
theorem find_value1_absent (α : Type) (path t : String) :
    find_value1 (α := α) path (.error (.ElementNotFound t))
        = .error (.ParseError ("Value not found at path: " ++ path)) ∧
      containsStr ("Value not found at path: " ++ path) path := by
  refine ⟨?_, containsStr_append_right _ path⟩
  simp [find_value1, find_value0]

/-- C9: building a text element from the integer `5` with
`make_text_element` and coercing it back with `unmarshal_into` at type
`i64` succeeds and yields `5`. -/
theorem round_trip_int_five :
    unmarshal_into i64FromStr (make_text_element toString "data" (5 : Int)) 0
      = (.ok true, 5) := by
  decide

end TreexmlUtil
